import Mathlib

/-!
Verification of the Tink key-management core against its specification.

The development shallowly embeds the repository's code: the two headers
under `src/cc` (`TestRandomAccessStream`, `EciesHkdfSenderKemBoringSsl::KemKey`)
are translated directly; the Registry, Serialization Registry, PrimitiveSet
and Wrapper machinery is exercised by `src/cc/mac/mac_config_test.cc` but its
implementation is not part of this source slice, so those components are
modelled from the specification (each such definition carries a
`Modelled from the spec:` doc comment).  Bytes are `Nat` values, machine
strings are `List Nat`, and status-returning operations are `Except Status`.
-/

namespace Tink

/-- Error-kind taxonomy of `absl::StatusCode`, restricted to the kinds the
spec's error-handling design names (§7) plus `permissionDenied` used by
secret-access checks. -/
inductive StatusCode where
  | ok
  | notFound
  | alreadyExists
  | invalidArgument
  | failedPrecondition
  | permissionDenied
  deriving DecidableEq

/-- A status value: an error kind together with its message, mirroring
`util::Status`. -/
structure Status where
  code : StatusCode
  message : String

/-! ### TestRandomAccessStream (src/cc/internal/test_random_access_stream.h) -/

/-- `TestRandomAccessStream` from
`src/cc/internal/test_random_access_stream.h`: a test-only
`RandomAccessStream` backed by a `std::string`, here a list of bytes. -/
structure TestRandomAccessStream where
  content : List Nat

/-- `TestRandomAccessStream::size()`: `return content_.size();` — the
`StatusOr<int64_t>` is built from the value, hence always an OK result. -/
def TestRandomAccessStream.size (s : TestRandomAccessStream) : Except Status Nat :=
  Except.ok s.content.length

/-! ### EciesHkdfSenderKemBoringSsl::KemKey (src/cc/subtle/ecies_hkdf_sender_kem_boringssl.h) -/

/-- `util::SecretData`: a byte container for secret material. -/
structure SecretData where
  bytes : List Nat

/-- `EciesHkdfSenderKemBoringSsl::KemKey`: container for data of keys
generated by the KEM; two members set by the constructor, never mutated. -/
structure KemKey where
  kem_bytes : List Nat
  symmetric_key : SecretData

/-- `KemKey() = default;` — both members are value-initialized to empty. -/
def KemKey.default : KemKey :=
  { kem_bytes := [], symmetric_key := { bytes := [] } }

/-- `const std::string& get_kem_bytes() const { return kem_bytes_; }` -/
def KemKey.get_kem_bytes (k : KemKey) : List Nat :=
  k.kem_bytes

/-- `const util::SecretData& get_symmetric_key() const { return symmetric_key_; }` -/
def KemKey.get_symmetric_key (k : KemKey) : SecretData :=
  k.symmetric_key

/-! ### Registry core, modelled from the spec

The Registry, PrimitiveSet and Wrapper implementations are not part of this
source slice; only `src/cc/mac/mac_config_test.cc` exercises them.  The
definitions below are modelled from the specification (§3, §4.1, §4.3, §4.4,
§7), with the concrete behaviour pinned down by that test. -/

/-- Modelled from the spec: the primitive capabilities appearing in the MAC
configuration (`Registry::get_key_manager<Mac>` / `<ChunkedMac>`); the
missing code is `tink/registry.h`'s capability dispatch. -/
inductive Capability where
  | mac
  | chunkedMac
  deriving DecidableEq

/-- Modelled from the spec: the `OutputPrefixType` proto enumeration
{RAW, TINK, LEGACY, CRUNCHY} of §3, plus the unrecognized value. -/
inductive OutputPrefixTypeProto where
  | unknown
  | tink
  | legacy
  | raw
  | crunchy
  deriving DecidableEq

/-- Modelled from the spec: key status `{ENABLED, DISABLED, DESTROYED}` (§3). -/
inductive KeyStatusType where
  | enabled
  | disabled
  | destroyed
  deriving DecidableEq

/-- Modelled from the spec: the `KeyData::KeyMaterialType` discriminator used
by `ProtoKeySerialization` (the test passes `KeyData::SYMMETRIC`). -/
inductive KeyMaterialTypeProto where
  | unknownKeyMaterial
  | symmetric
  | asymmetricPrivate
  | asymmetricPublic
  | remote

/-- The key-type identifier of `HmacKeyManager` (`HmacKeyManager().get_key_type()`). -/
def hmacKeyTypeUrl : String :=
  "type.googleapis.com/google.crypto.tink.HmacKey"

/-- The key-type identifier of `AesCmacKeyManager`, spelled out in
`mac_config_test.cc` line 191. -/
def aesCmacKeyTypeUrl : String :=
  "type.googleapis.com/google.crypto.tink.AesCmacKey"

/-- Modelled from the spec: a KeyManager capability (§2, §6) — key-type
identifier, a factory identity (two managers are "identical" iff their data
is equal), and the capabilities it supports; the missing code is the
`KeyTypeManager` hierarchy. -/
structure KeyManager where
  key_type : String
  manager_id : Nat
  capabilities : List Capability
  deriving DecidableEq

/-- `HmacKeyManager`: yields both `Mac` and `ChunkedMac` primitives. -/
def hmacKeyManager : KeyManager :=
  { key_type := hmacKeyTypeUrl, manager_id := 0, capabilities := [.mac, .chunkedMac] }

/-- `AesCmacKeyManager`: yields both `Mac` and `ChunkedMac` primitives. -/
def aesCmacKeyManager : KeyManager :=
  { key_type := aesCmacKeyTypeUrl, manager_id := 1, capabilities := [.mac, .chunkedMac] }

/-- Modelled from the spec: the process-wide Registry state (§4.1) — the
catalog of key managers plus which wrappers are registered; the missing code
is `tink/registry.h`. -/
structure RegistryState where
  key_managers : List KeyManager
  mac_wrapper_registered : Bool
  chunked_mac_wrapper_registered : Bool

/-- The state after `Registry::Reset()`: no registrations. -/
def RegistryState.initial : RegistryState :=
  { key_managers := [], mac_wrapper_registered := false,
    chunked_mac_wrapper_registered := false }

/-- NotFound status for a key-manager lookup miss (§7). -/
def keyManagerNotFoundStatus : Status :=
  { code := .notFound, message := "No manager for this type URL has been registered" }

/-- InvalidArgument status when a manager exists but does not support the
requested capability (§4.1). -/
def keyManagerUnsupportedStatus : Status :=
  { code := .invalidArgument, message := "Manager does not support the requested primitive" }

/-- AlreadyExists status for a conflicting re-registration (§7). -/
def alreadyExistsStatus : Status :=
  { code := .alreadyExists, message := "A different manager is already registered for this type URL" }

/-- The manager registered under `url`, if any. -/
def managerFor (st : RegistryState) (url : String) : Option KeyManager :=
  st.key_managers.find? (fun m => m.key_type == url)

/-- Modelled from the spec: `Registry::get_key_manager<P>(identifier)` (§4.1)
— NotFound when nothing is registered under the identifier, InvalidArgument
when the manager does not support `P`. -/
def get_key_manager (st : RegistryState) (cap : Capability) (url : String) :
    Except Status KeyManager :=
  match managerFor st url with
  | none => .error keyManagerNotFoundStatus
  | some m =>
      if m.capabilities.contains cap then .ok m else .error keyManagerUnsupportedStatus

/-- Modelled from the spec: `Registry::RegisterKeyManager` (§4.1) — no-op
success when the identical manager is registered again, AlreadyExists when a
different manager holds the identifier. -/
def RegisterKeyManager (st : RegistryState) (m : KeyManager) : Except Status RegistryState :=
  match managerFor st m.key_type with
  | none => .ok { st with key_managers := st.key_managers ++ [m] }
  | some existing => if existing = m then .ok st else .error alreadyExistsStatus

/-- NotFound status for `Registry::Wrap` with no wrapper registered (§4.1). -/
def wrapperNotFoundStatus : Status :=
  { code := .notFound, message := "No wrapper registered for this primitive" }

/-- Modelled from the spec: registering the `MacWrapper` bundle entry. -/
def RegisterMacWrapper (st : RegistryState) : RegistryState :=
  { st with mac_wrapper_registered := true }

/-- Modelled from the spec: registering the `ChunkedMacWrapper` bundle entry. -/
def RegisterChunkedMacWrapper (st : RegistryState) : RegistryState :=
  { st with chunked_mac_wrapper_registered := true }

/-! ### PrimitiveSet and the MAC wrapper, modelled from the spec (§3, §4.3, §4.4) -/

/-- Modelled from the spec: one `PrimitiveSet<Mac>` entry (§3) — the realized
primitive (a deterministic MAC function over bytes), key id, status and
output-prefix type; the missing code is `tink/primitive_set.h`. -/
structure MacEntry where
  compute : List Nat → List Nat
  key_id : Nat
  status : KeyStatusType
  output_prefix_type : OutputPrefixTypeProto

/-- Modelled from the spec: `PrimitiveSet<Mac>` (§3, §4.3) — an ordered
collection of entries plus zero or one designated primary, referenced by the
handle (index) `AddPrimitive` returned. -/
structure MacPrimitiveSet where
  entries : List MacEntry
  primary_index : Option Nat

/-- A freshly constructed, empty `PrimitiveSet<Mac>`. -/
def MacPrimitiveSet.empty : MacPrimitiveSet :=
  { entries := [], primary_index := none }

/-- InvalidArgument status for `AddPrimitive` on an unrecognized
output-prefix type (§4.3). -/
def unrecognizedOutputStatus : Status :=
  { code := .invalidArgument, message := "unknown output prefix type" }

/-- Modelled from the spec: `PrimitiveSet::AddPrimitive` (§4.3) — appends an
entry and returns its handle; InvalidArgument on an unrecognized
output-prefix type. -/
def MacPrimitiveSet.AddPrimitive (ps : MacPrimitiveSet) (e : MacEntry) :
    Except Status (MacPrimitiveSet × Nat) :=
  if e.output_prefix_type = .unknown then .error unrecognizedOutputStatus
  else .ok ({ ps with entries := ps.entries ++ [e] }, ps.entries.length)

/-- InvalidArgument status for `set_primary` on a DISABLED or absent entry (§4.3). -/
def setPrimaryInvalidStatus : Status :=
  { code := .invalidArgument, message := "The primary entry must be present in the set and ENABLED" }

/-- Modelled from the spec: `PrimitiveSet::set_primary` (§4.3) — designates
the primary; InvalidArgument when the referenced entry is not present or not
ENABLED. -/
def MacPrimitiveSet.set_primary (ps : MacPrimitiveSet) (handle : Nat) :
    Except Status MacPrimitiveSet :=
  match ps.entries.get? handle with
  | none => .error setPrimaryInvalidStatus
  | some e =>
      if e.status = .enabled then .ok { ps with primary_index := some handle }
      else .error setPrimaryInvalidStatus

/-- The designated primary entry, if any. -/
def MacPrimitiveSet.primaryEntry (ps : MacPrimitiveSet) : Option MacEntry :=
  ps.primary_index.bind (fun i => ps.entries.get? i)

/-- The invariant of §3: the primary, if set, references an entry present in
the set whose status is ENABLED. -/
def MacPrimitiveSet.PrimaryOk (ps : MacPrimitiveSet) : Prop :=
  ∀ i, ps.primary_index = some i →
    ∃ e, ps.entries.get? i = some e ∧ e.status = KeyStatusType.enabled

/-- The 4-byte big-endian encoding of a (32-bit) key id. -/
def uint32BigEndian (n : Nat) : List Nat :=
  [n / 2 ^ 24 % 256, n / 2 ^ 16 % 256, n / 2 ^ 8 % 256, n % 256]

/-- Modelled from the spec: the framing bytes an entry's output carries (§3)
— RAW: none; TINK: `0x01` then the big-endian key id; LEGACY/CRUNCHY: `0x00`
then the big-endian key id. -/
def framingBytes (e : MacEntry) : List Nat :=
  match e.output_prefix_type with
  | .raw => []
  | .tink => 1 :: uint32BigEndian e.key_id
  | .legacy => 0 :: uint32BigEndian e.key_id
  | .crunchy => 0 :: uint32BigEndian e.key_id
  | .unknown => []

/-- Modelled from the spec: LEGACY additionally changes how the primitive
processes its input (§3) — the legacy MAC is computed over the message with
a trailing `0x00` byte. -/
def macInputFor (e : MacEntry) (msg : List Nat) : List Nat :=
  match e.output_prefix_type with
  | .legacy => msg ++ [0]
  | _ => msg

/-- The complete wrapped output an entry produces for `msg`: framing bytes
followed by the primitive's native output. -/
def entryMacOutput (e : MacEntry) (msg : List Nat) : List Nat :=
  framingBytes e ++ e.compute (macInputFor e msg)

/-- FailedPrecondition status for a single-output operation with no primary (§7). -/
def noPrimaryStatus : Status :=
  { code := .failedPrecondition, message := "no primary set" }

/-- Modelled from the spec: the MAC wrapper's single-output operation
`ComputeMac` (§4.4) — delegates exclusively to the primary and frames the
output per the primary's output-prefix type. -/
def ComputeMac (ps : MacPrimitiveSet) (msg : List Nat) : Except Status (List Nat) :=
  match ps.primaryEntry with
  | none => .error noPrimaryStatus
  | some e => .ok (entryMacOutput e msg)

/-- Whether an entry's output-prefix type and encoded key id are consistent
with the leading bytes of the candidate (§4.3): RAW entries always match;
framed entries match only on the exact tag+id prefix. -/
def entryMatchesCandidate (e : MacEntry) (tag : List Nat) : Bool :=
  match e.output_prefix_type with
  | .raw => true
  | .unknown => false
  | _ => tag.take 5 == framingBytes e

/-- Modelled from the spec: `PrimitiveSet::EntriesForPrefix` (§4.3) — all
ENABLED entries consistent with the candidate's leading bytes, in insertion
order. -/
def EntriesForCandidate (ps : MacPrimitiveSet) (tag : List Nat) : List MacEntry :=
  ps.entries.filter
    (fun e => decide (e.status = KeyStatusType.enabled) && entryMatchesCandidate e tag)

/-- The single uniform InvalidArgument result of a failed verification (§7). -/
def macVerificationFailedStatus : Status :=
  { code := .invalidArgument, message := "verification failed" }

/-- Modelled from the spec: the MAC wrapper's verification-family operation
`VerifyMac` (§4.4) — attempts the candidate entries in order, succeeds on
the first success, and fails with the single uniform InvalidArgument status
only after exhausting all candidates. -/
def VerifyMac (ps : MacPrimitiveSet) (tag msg : List Nat) : Except Status Unit :=
  if (EntriesForCandidate ps tag).any (fun e => tag == entryMacOutput e msg) then .ok ()
  else .error macVerificationFailedStatus

/-! ### Parameters, Keys and the Serialization Registry, modelled from the
spec (§3, §4.2) with the AES-CMAC family pinned down by
`mac_config_test.cc` lines 139–230. -/

/-- Modelled from the spec: `AesCmacParameters::Variant` — the output-prefix
variants of the AES-CMAC parameters (`Variant::kTink` appears in the test). -/
inductive AesCmacVariant where
  | kTink
  | kCrunchy
  | kLegacy
  | kNoPrefixVariant
  deriving DecidableEq

/-- Modelled from the spec: `AesCmacParameters` (§3) — an immutable
description of the algorithmic configuration, no secret material; the
missing code is `tink/mac/aes_cmac_parameters.h`. -/
structure AesCmacParameters where
  key_size_in_bytes : Nat
  cryptographic_tag_size_in_bytes : Nat
  variant : AesCmacVariant

/-- InvalidArgument status for an unsupported AES-CMAC key size. -/
def aesCmacKeySizeStatus : Status :=
  { code := .invalidArgument, message := "Key size must be 16 or 32 bytes" }

/-- InvalidArgument status for an AES-CMAC tag size below 10 bytes. -/
def aesCmacTagSmallStatus : Status :=
  { code := .invalidArgument, message := "Tag size too small" }

/-- InvalidArgument status for an AES-CMAC tag size above 16 bytes. -/
def aesCmacTagLargeStatus : Status :=
  { code := .invalidArgument, message := "Tag size too big" }

/-- Modelled from the spec: `AesCmacParameters::Create` — the validating
constructor the test calls with `(32, 16, Variant::kTink)`; a valid
constructed value has key size 16 or 32 and tag size between 10 and 16. -/
def AesCmacParameters.Create (ks ts : Nat) (v : AesCmacVariant) :
    Except Status AesCmacParameters :=
  if ks ≠ 16 ∧ ks ≠ 32 then .error aesCmacKeySizeStatus
  else if ts < 10 then .error aesCmacTagSmallStatus
  else if 16 < ts then .error aesCmacTagLargeStatus
  else .ok { key_size_in_bytes := ks, cryptographic_tag_size_in_bytes := ts, variant := v }

/-- Whether keys built from these parameters carry an id requirement: every
variant except the no-prefix one does. -/
def AesCmacParameters.HasIdRequirement (p : AesCmacParameters) : Bool :=
  decide (p.variant ≠ AesCmacVariant.kNoPrefixVariant)

/-- Modelled from the spec: the secret-access capability token (§6), minted
only by `InsecureSecretKeyAccess::Get()`; the missing code is
`tink/insecure_secret_key_access.h`. -/
inductive SecretKeyAccessToken where
  | insecureSecretKeyAccess

/-- The status returned when an operation needing secret access is invoked
without the token. -/
def missingSecretAccessStatus : Status :=
  { code := .permissionDenied, message := "SecretKeyAccess is required" }

/-- Modelled from the spec: `RestrictedData` (§3) — the container holding
secret material, whose construction and raw access require the token. -/
structure RestrictedData where
  secret : List Nat

/-- Modelled from the spec: constructing a `RestrictedData` from raw bytes
requires presenting the secret-access token. -/
def RestrictedData.Create (b : List Nat) (tok : Option SecretKeyAccessToken) :
    Except Status RestrictedData :=
  match tok with
  | none => .error missingSecretAccessStatus
  | some _ => .ok { secret := b }

/-- Modelled from the spec: extracting the raw secret bytes requires
presenting the secret-access token. -/
def RestrictedData.GetSecret (rd : RestrictedData) (tok : Option SecretKeyAccessToken) :
    Except Status (List Nat) :=
  match tok with
  | none => .error missingSecretAccessStatus
  | some _ => .ok rd.secret

/-- Modelled from the spec: `AesCmacKey` (§3) — parameters plus secret key
material plus an optional id requirement; the missing code is
`tink/mac/aes_cmac_key.h`. -/
structure AesCmacKey where
  parameters : AesCmacParameters
  key_bytes : RestrictedData
  id_requirement : Option Nat

/-- InvalidArgument status when key material length and parameters disagree. -/
def aesCmacKeyMismatchStatus : Status :=
  { code := .invalidArgument, message := "Key size does not match AES-CMAC parameters" }

/-- InvalidArgument status when the id requirement and the parameters
variant are inconsistent. -/
def aesCmacIdRequirementStatus : Status :=
  { code := .invalidArgument, message := "Key id requirement and parameters variant are inconsistent" }

/-- Modelled from the spec: `AesCmacKey::Create` — the validating
constructor (the C++ version additionally takes a `PartialKeyAccessToken`,
which carries no information). -/
def AesCmacKey.Create (p : AesCmacParameters) (kb : RestrictedData) (idr : Option Nat) :
    Except Status AesCmacKey :=
  if kb.secret.length ≠ p.key_size_in_bytes then .error aesCmacKeyMismatchStatus
  else if p.HasIdRequirement && idr.isNone then .error aesCmacIdRequirementStatus
  else if !p.HasIdRequirement && idr.isSome then .error aesCmacIdRequirementStatus
  else .ok { parameters := p, key_bytes := kb, id_requirement := idr }

/-- Modelled from the spec: the wire encoding of `AesCmacKeyFormat` carried
inside a parameters serialization (byte grammar is out of scope (§1), so it
is kept structural). -/
structure AesCmacKeyFormatProto where
  key_size : Nat
  tag_size : Nat

/-- Modelled from the spec: `internal::ProtoParametersSerialization` — a
format-tagged representation of a `Parameters` (§3). -/
structure ProtoParametersSerialization where
  type_url : String
  output_prefix_type : OutputPrefixTypeProto
  key_format : AesCmacKeyFormatProto

/-- Modelled from the spec: the wire encoding of the `AesCmacKey` proto
message carried inside a key serialization. -/
structure AesCmacKeyProto where
  version : Nat
  key_value : List Nat
  tag_size : Nat

/-- Modelled from the spec: `internal::ProtoKeySerialization` — a
format-tagged representation of a `Key` (§3), carrying the key material
type, output-prefix type and optional id requirement the test supplies. -/
structure ProtoKeySerialization where
  type_url : String
  serialized_key : AesCmacKeyProto
  key_material_type : KeyMaterialTypeProto
  output_prefix_type : OutputPrefixTypeProto
  id_requirement : Option Nat

/-- The in-memory `Parameters` objects of this configuration. -/
inductive Parameters where
  | aesCmac (p : AesCmacParameters)

/-- The in-memory `Key` objects of this configuration. -/
inductive Key where
  | aesCmac (k : AesCmacKey)

/-- The object kinds serializers are keyed by (§4.2): the concrete
`Parameters` kind. -/
inductive ParametersKind where
  | aesCmacParameters
  deriving DecidableEq

/-- The object kinds key serializers are keyed by (§4.2). -/
inductive KeyKind where
  | aesCmacKey
  deriving DecidableEq

/-- The kind of a `Parameters` object. -/
def Parameters.kind : Parameters → ParametersKind
  | .aesCmac _ => .aesCmacParameters

/-- The kind of a `Key` object. -/
def Key.kind : Key → KeyKind
  | .aesCmac _ => .aesCmacKey

/-- The output-prefix type a variant serializes to. -/
def variantToOutputPrefixType : AesCmacVariant → OutputPrefixTypeProto
  | .kTink => .tink
  | .kCrunchy => .crunchy
  | .kLegacy => .legacy
  | .kNoPrefixVariant => .raw

/-- InvalidArgument status for an output-prefix type with no variant. -/
def invalidVariantStatus : Status :=
  { code := .invalidArgument, message := "Could not determine AesCmacParameters variant" }

/-- The variant an output-prefix type parses to; the unrecognized value is
rejected. -/
def variantFromOutputPrefixType : OutputPrefixTypeProto → Except Status AesCmacVariant
  | .tink => .ok .kTink
  | .crunchy => .ok .kCrunchy
  | .legacy => .ok .kLegacy
  | .raw => .ok .kNoPrefixVariant
  | .unknown => .error invalidVariantStatus

/-- InvalidArgument status for a serialization delivered to the wrong parser. -/
def wrongTypeUrlStatus : Status :=
  { code := .invalidArgument, message := "Wrong type URL" }

/-- Modelled from the spec: the registered AES-CMAC parameters parser
(bytes → object, §4.2); rejects malformed input with InvalidArgument. -/
def ParseAesCmacParameters (s : ProtoParametersSerialization) : Except Status Parameters := do
  if s.type_url ≠ aesCmacKeyTypeUrl then .error wrongTypeUrlStatus
  else do
    let v ← variantFromOutputPrefixType s.output_prefix_type
    let p ← AesCmacParameters.Create s.key_format.key_size s.key_format.tag_size v
    pure (Parameters.aesCmac p)

/-- Modelled from the spec: the registered AES-CMAC parameters serializer
(object → bytes, §4.2). -/
def SerializeAesCmacParameters (p : Parameters) : Except Status ProtoParametersSerialization :=
  match p with
  | .aesCmac q =>
      .ok { type_url := aesCmacKeyTypeUrl,
            output_prefix_type := variantToOutputPrefixType q.variant,
            key_format := { key_size := q.key_size_in_bytes,
                            tag_size := q.cryptographic_tag_size_in_bytes } }

/-- InvalidArgument status for an unsupported key version. -/
def aesCmacVersionStatus : Status :=
  { code := .invalidArgument, message := "Only version 0 keys are accepted" }

/-- Modelled from the spec: the registered AES-CMAC key parser (§4.2) —
producing a `Key` from a `Serialization` holding secret material requires
the caller to present the secret-access token. -/
def ParseAesCmacKey (s : ProtoKeySerialization) (tok : Option SecretKeyAccessToken) :
    Except Status Key := do
  if s.type_url ≠ aesCmacKeyTypeUrl then .error wrongTypeUrlStatus
  else if tok.isNone then .error missingSecretAccessStatus
  else if s.serialized_key.version ≠ 0 then .error aesCmacVersionStatus
  else do
    let v ← variantFromOutputPrefixType s.output_prefix_type
    let p ← AesCmacParameters.Create s.serialized_key.key_value.length
              s.serialized_key.tag_size v
    let rd ← RestrictedData.Create s.serialized_key.key_value tok
    let k ← AesCmacKey.Create p rd s.id_requirement
    pure (Key.aesCmac k)

/-- Modelled from the spec: the registered AES-CMAC key serializer (§4.2) —
extracting the raw secret bytes into the serialization requires the token. -/
def SerializeAesCmacKey (k : Key) (tok : Option SecretKeyAccessToken) :
    Except Status ProtoKeySerialization :=
  match k with
  | .aesCmac q => do
      let raw ← q.key_bytes.GetSecret tok
      pure { type_url := aesCmacKeyTypeUrl,
             serialized_key := { version := 0, key_value := raw,
                                 tag_size := q.parameters.cryptographic_tag_size_in_bytes },
             key_material_type := .symmetric,
             output_prefix_type := variantToOutputPrefixType q.parameters.variant,
             id_requirement := q.id_requirement }

/-- The type of registered parameters parsers. -/
abbrev ParametersParserFn := ProtoParametersSerialization → Except Status Parameters

/-- The type of registered parameters serializers. -/
abbrev ParametersSerializerFn := Parameters → Except Status ProtoParametersSerialization

/-- The type of registered key parsers. -/
abbrev KeyParserFn :=
  ProtoKeySerialization → Option SecretKeyAccessToken → Except Status Key

/-- The type of registered key serializers. -/
abbrev KeySerializerFn :=
  Key → Option SecretKeyAccessToken → Except Status ProtoKeySerialization

/-- Modelled from the spec: `internal::MutableSerializationRegistry` (§4.2)
— independent maps keyed by the serialization's type tag (parsers) and by
the concrete object kind (serializers). -/
structure MutableSerializationRegistry where
  parameters_parsers : List (String × ParametersParserFn)
  parameters_serializers : List (ParametersKind × ParametersSerializerFn)
  key_parsers : List (String × KeyParserFn)
  key_serializers : List (KeyKind × KeySerializerFn)

/-- The registry after `Reset()`: no registrations. -/
def MutableSerializationRegistry.empty : MutableSerializationRegistry :=
  { parameters_parsers := [], parameters_serializers := [],
    key_parsers := [], key_serializers := [] }

/-- Modelled from the spec: registering a parameters parser under its format
tag; a second registration under an occupied tag is absorbed (§3 lifecycle:
registration is idempotent). -/
def MutableSerializationRegistry.RegisterParametersParserEntry
    (reg : MutableSerializationRegistry) (url : String) (f : ParametersParserFn) :
    MutableSerializationRegistry :=
  if reg.parameters_parsers.any (fun e => e.1 == url) then reg
  else { reg with parameters_parsers := reg.parameters_parsers ++ [(url, f)] }

/-- Modelled from the spec: registering a parameters serializer under its
object kind. -/
def MutableSerializationRegistry.RegisterParametersSerializerEntry
    (reg : MutableSerializationRegistry) (k : ParametersKind) (f : ParametersSerializerFn) :
    MutableSerializationRegistry :=
  if reg.parameters_serializers.any (fun e => decide (e.1 = k)) then reg
  else { reg with parameters_serializers := reg.parameters_serializers ++ [(k, f)] }

/-- Modelled from the spec: registering a key parser under its format tag. -/
def MutableSerializationRegistry.RegisterKeyParserEntry
    (reg : MutableSerializationRegistry) (url : String) (f : KeyParserFn) :
    MutableSerializationRegistry :=
  if reg.key_parsers.any (fun e => e.1 == url) then reg
  else { reg with key_parsers := reg.key_parsers ++ [(url, f)] }

/-- Modelled from the spec: registering a key serializer under its object kind. -/
def MutableSerializationRegistry.RegisterKeySerializerEntry
    (reg : MutableSerializationRegistry) (k : KeyKind) (f : KeySerializerFn) :
    MutableSerializationRegistry :=
  if reg.key_serializers.any (fun e => decide (e.1 = k)) then reg
  else { reg with key_serializers := reg.key_serializers ++ [(k, f)] }

/-- NotFound status of `ParseParameters` with no parser for the tag (§4.2). -/
def noParametersParserStatus : Status :=
  { code := .notFound, message := "No parameters parser registered for this serialization" }

/-- NotFound status of `SerializeParameters` with no serializer for the kind (§4.2). -/
def noParametersSerializerStatus : Status :=
  { code := .notFound, message := "No parameters serializer registered for this kind" }

/-- NotFound status of `ParseKey` with no parser for the tag (§4.2). -/
def noKeyParserStatus : Status :=
  { code := .notFound, message := "No key parser registered for this serialization" }

/-- NotFound status of `SerializeKey` with no serializer for the kind (§4.2). -/
def noKeySerializerStatus : Status :=
  { code := .notFound, message := "No key serializer registered for this kind" }

/-- Modelled from the spec: `MutableSerializationRegistry::ParseParameters`
(§4.2) — dispatches on the serialization's type tag; NotFound when no
parser is registered for it. -/
def MutableSerializationRegistry.ParseParameters
    (reg : MutableSerializationRegistry) (s : ProtoParametersSerialization) :
    Except Status Parameters :=
  match reg.parameters_parsers.find? (fun e => e.1 == s.type_url) with
  | none => .error noParametersParserStatus
  | some e => e.2 s

/-- Modelled from the spec: `MutableSerializationRegistry::SerializeParameters`
(§4.2) — dispatches on the concrete kind of the object; NotFound when no
serializer is registered for it. -/
def MutableSerializationRegistry.SerializeParameters
    (reg : MutableSerializationRegistry) (p : Parameters) :
    Except Status ProtoParametersSerialization :=
  match reg.parameters_serializers.find? (fun e => decide (e.1 = p.kind)) with
  | none => .error noParametersSerializerStatus
  | some e => e.2 p

/-- Modelled from the spec: `MutableSerializationRegistry::ParseKey` (§4.2). -/
def MutableSerializationRegistry.ParseKey
    (reg : MutableSerializationRegistry) (s : ProtoKeySerialization)
    (tok : Option SecretKeyAccessToken) : Except Status Key :=
  match reg.key_parsers.find? (fun e => e.1 == s.type_url) with
  | none => .error noKeyParserStatus
  | some e => e.2 s tok

/-- Modelled from the spec: `MutableSerializationRegistry::SerializeKey` (§4.2). -/
def MutableSerializationRegistry.SerializeKey
    (reg : MutableSerializationRegistry) (k : Key)
    (tok : Option SecretKeyAccessToken) : Except Status ProtoKeySerialization :=
  match reg.key_serializers.find? (fun e => decide (e.1 = k.kind)) with
  | none => .error noKeySerializerStatus
  | some e => e.2 k tok

/-! ### Config entry points and keyset generation, modelled from the spec -/

/-- The whole process-wide state the config entry points populate. -/
structure GlobalState where
  registry : RegistryState
  serialization : MutableSerializationRegistry

/-- The state after `Registry::Reset()` and
`MutableSerializationRegistry::GlobalInstance().Reset()` (the test's SetUp). -/
def GlobalState.initial : GlobalState :=
  { registry := RegistryState.initial, serialization := MutableSerializationRegistry.empty }

/-- Modelled from the spec: `MacConfig::Register` (§2 config entry points) —
registers the MAC wrappers and key managers; in FIPS-only mode only the
FIPS-validated HMAC key manager is registered (and no AES-CMAC
serialization), otherwise both managers and the AES-CMAC parser/serializer
bundle are registered. -/
def MacConfig.Register (fips : Bool) (st : GlobalState) : Except Status GlobalState := do
  let reg1 := RegisterChunkedMacWrapper (RegisterMacWrapper st.registry)
  let reg2 ← RegisterKeyManager reg1 hmacKeyManager
  if fips then
    pure { registry := reg2, serialization := st.serialization }
  else do
    let reg3 ← RegisterKeyManager reg2 aesCmacKeyManager
    let ser := st.serialization
      |>.RegisterParametersParserEntry aesCmacKeyTypeUrl ParseAesCmacParameters
      |>.RegisterParametersSerializerEntry .aesCmacParameters SerializeAesCmacParameters
      |>.RegisterKeyParserEntry aesCmacKeyTypeUrl ParseAesCmacKey
      |>.RegisterKeySerializerEntry .aesCmacKey SerializeAesCmacKey
    pure { registry := reg3, serialization := ser }

/-- Modelled from the spec: a key template names the key type to generate
(§6 KeyManager interface); the proto payload is out of scope. -/
structure KeyTemplate where
  type_url : String

/-- `MacKeyTemplates::AesCmac()`. -/
def MacKeyTemplates.AesCmac : KeyTemplate :=
  { type_url := aesCmacKeyTypeUrl }

/-- `MacKeyTemplates::HmacSha256()`. -/
def MacKeyTemplates.HmacSha256 : KeyTemplate :=
  { type_url := hmacKeyTypeUrl }

/-- `MacKeyTemplates::HmacSha256HalfSizeTag()`. -/
def MacKeyTemplates.HmacSha256HalfSizeTag : KeyTemplate :=
  { type_url := hmacKeyTypeUrl }

/-- `MacKeyTemplates::HmacSha512()`. -/
def MacKeyTemplates.HmacSha512 : KeyTemplate :=
  { type_url := hmacKeyTypeUrl }

/-- `MacKeyTemplates::HmacSha512HalfSizeTag()`. -/
def MacKeyTemplates.HmacSha512HalfSizeTag : KeyTemplate :=
  { type_url := hmacKeyTypeUrl }

/-- Modelled from the spec: `KeysetHandle::GenerateNew(template)` resolves
the template's key type through the Registry and asks the manager for new
key material; with no manager registered for the type it fails with the
Registry's NotFound. -/
def GenerateNew (st : GlobalState) (t : KeyTemplate) : Except Status Unit :=
  match managerFor st.registry t.type_url with
  | none => .error keyManagerNotFoundStatus
  | some _ => .ok ()

/-- Modelled from the spec: `Registry::Wrap<Mac>` (§4.1) — looks up the
wrapper registered for `Mac` and applies it (the wrapper is a pure
transformation, §4.4); NotFound when none is registered. -/
def Wrap (st : GlobalState) (ps : MacPrimitiveSet) : Except Status MacPrimitiveSet :=
  if st.registry.mac_wrapper_registered then .ok ps else .error wrapperNotFoundStatus

/-- The state `MacConfig::Register()` produces from the initial state
outside FIPS mode. -/
def macRegisteredState : GlobalState :=
  match MacConfig.Register false GlobalState.initial with
  | .ok st => st
  | .error _ => GlobalState.initial

/-- The state `MacConfig::Register()` produces from the initial state in
FIPS-only mode. -/
def fipsRegisteredState : GlobalState :=
  match MacConfig.Register true GlobalState.initial with
  | .ok st => st
  | .error _ => GlobalState.initial

/-! ### Concrete values taken from `mac_config_test.cc` -/

/-- The parameters the test constructs:
`AesCmacParameters::Create(32, 16, Variant::kTink)`. -/
def aesCmacTestParameters : AesCmacParameters :=
  { key_size_in_bytes := 32, cryptographic_tag_size_in_bytes := 16, variant := .kTink }

/-- The parameters serialization the test builds from
`MacKeyTemplates::AesCmac()` (key size 32, tag size 16, TINK output-prefix). -/
def aesCmacTestParametersSerialization : ProtoParametersSerialization :=
  { type_url := aesCmacKeyTypeUrl, output_prefix_type := .tink,
    key_format := { key_size := 32, tag_size := 16 } }

/-- A fixed 32-byte key value standing in for
`subtle::Random::GetRandomBytes(32)`. -/
def aesCmacTestKeyBytes : List Nat :=
  List.replicate 32 7

/-- The key the test constructs: `AesCmacKey::Create(params, 32 key bytes, 123)`. -/
def aesCmacTestKey : AesCmacKey :=
  { parameters := aesCmacTestParameters,
    key_bytes := { secret := aesCmacTestKeyBytes },
    id_requirement := some 123 }

/-- The key serialization the test constructs with
`ProtoKeySerialization::Create(..., KeyData::SYMMETRIC, TINK, 123)`. -/
def aesCmacTestKeySerialization : ProtoKeySerialization :=
  { type_url := aesCmacKeyTypeUrl,
    serialized_key := { version := 0, key_value := aesCmacTestKeyBytes, tag_size := 16 },
    key_material_type := .symmetric, output_prefix_type := .tink,
    id_requirement := some 123 }

/-- A concrete deterministic MAC primitive, standing in for the test's
`DummyMac("dummy")`. -/
def dummyMac : List Nat → List Nat :=
  fun msg => 9 :: msg

/-- An ENABLED TINK entry with key id 1234, as in the test's `key_info`. -/
def tinkTestEntry : MacEntry :=
  { compute := dummyMac, key_id := 1234, status := .enabled, output_prefix_type := .tink }

/-- An ENABLED RAW entry with key id 1234, as in the test's `key_info`. -/
def rawTestEntry : MacEntry :=
  { compute := dummyMac, key_id := 1234, status := .enabled, output_prefix_type := .raw }

/-- A DISABLED entry, for exercising the primary-designation failure path. -/
def disabledTestEntry : MacEntry :=
  { compute := dummyMac, key_id := 42, status := .disabled, output_prefix_type := .raw }

/-- A primitive set whose primary is the ENABLED TINK entry. -/
def tinkTestSet : MacPrimitiveSet :=
  { entries := [tinkTestEntry], primary_index := some 0 }

/-- A primitive set whose primary is the ENABLED RAW entry. -/
def rawTestSet : MacPrimitiveSet :=
  { entries := [rawTestEntry], primary_index := some 0 }

/-- A primitive set holding one ENABLED and one DISABLED entry, no primary yet. -/
def mixedTestSet : MacPrimitiveSet :=
  { entries := [rawTestEntry, disabledTestEntry], primary_index := none }

end Tink

namespace Tink

/-- C9: for every `TestRandomAccessStream` constructed from a string `s`,
`size()` returns a success status carrying exactly the length of `s`; there
is no failure branch. -/
theorem testRandomAccessStream_size_ok :
    ∀ s : List Nat, (TestRandomAccessStream.mk s).size = Except.ok s.length := by
  intro s
  rfl

/-- C10: a `KemKey` constructed from `(kem_bytes, symmetric_key)` returns
exactly those values from its two accessors, and a default-constructed
`KemKey` returns empty values from both. -/
theorem kemKey_accessors_exact :
    (∀ (kb : List Nat) (sk : SecretData),
      (KemKey.mk kb sk).get_kem_bytes = kb ∧ (KemKey.mk kb sk).get_symmetric_key = sk) ∧
    KemKey.default.get_kem_bytes = [] ∧
    KemKey.default.get_symmetric_key = { bytes := [] } := by
  exact ⟨fun kb sk => ⟨rfl, rfl⟩, rfl, rfl⟩

/-! ### Characterizations of the registered states and validating constructors -/

/-- Closed form of the state `MacConfig::Register()` reaches outside FIPS mode. -/
theorem macRegisteredState_eq :
    macRegisteredState =
      { registry := { key_managers := [hmacKeyManager, aesCmacKeyManager],
                      mac_wrapper_registered := true, chunked_mac_wrapper_registered := true },
        serialization :=
          { parameters_parsers := [(aesCmacKeyTypeUrl, ParseAesCmacParameters)],
            parameters_serializers :=
              [(ParametersKind.aesCmacParameters, SerializeAesCmacParameters)],
            key_parsers := [(aesCmacKeyTypeUrl, ParseAesCmacKey)],
            key_serializers := [(KeyKind.aesCmacKey, SerializeAesCmacKey)] } } := by
  rfl

/-- Closed form of the state `MacConfig::Register()` reaches in FIPS-only mode. -/
theorem fipsRegisteredState_eq :
    fipsRegisteredState =
      { registry := { key_managers := [hmacKeyManager],
                      mac_wrapper_registered := true, chunked_mac_wrapper_registered := true },
        serialization := MutableSerializationRegistry.empty } := by
  rfl

/-- `AesCmacParameters::Create` succeeds exactly on key size 16 or 32 and tag
size between 10 and 16, and then returns the structural value. -/
theorem aesCmacParameters_create_ok_iff (ks ts : Nat) (v : AesCmacVariant)
    (p : AesCmacParameters) :
    AesCmacParameters.Create ks ts v = .ok p ↔
      ((ks = 16 ∨ ks = 32) ∧ 10 ≤ ts ∧ ts ≤ 16 ∧
        p = { key_size_in_bytes := ks, cryptographic_tag_size_in_bytes := ts, variant := v }) := by
  unfold AesCmacParameters.Create
  split
  · rename_i h
    constructor
    · intro h2
      simp at h2
    · rintro ⟨hk, -, -, -⟩
      omega
  · split
    · rename_i h1 h2
      constructor
      · intro h3
        simp at h3
      · rintro ⟨-, hts, -, -⟩
        omega
    · split
      · rename_i h1 h2 h3
        constructor
        · intro h4
          simp at h4
        · rintro ⟨-, -, hts, -⟩
          omega
      · rename_i h1 h2 h3
        simp only [Except.ok.injEq]
        constructor
        · intro he
          exact ⟨by omega, by omega, by omega, he.symm⟩
        · rintro ⟨-, -, -, hpe⟩
          exact hpe.symm

/-- Parsing the output-prefix type a variant serializes to recovers the variant. -/
theorem variantFromOutputPrefixType_roundtrip (v : AesCmacVariant) :
    variantFromOutputPrefixType (variantToOutputPrefixType v) = .ok v := by
  cases v <;> rfl

/-- `AesCmacKey::Create` succeeds exactly when the key material length
matches the parameters' key size and the id requirement matches the variant,
and then returns the structural value. -/
theorem aesCmacKey_create_ok_iff (p : AesCmacParameters) (kb : RestrictedData)
    (idr : Option Nat) (k : AesCmacKey) :
    AesCmacKey.Create p kb idr = .ok k ↔
      (kb.secret.length = p.key_size_in_bytes ∧
        p.HasIdRequirement = idr.isSome ∧
        k = { parameters := p, key_bytes := kb, id_requirement := idr }) := by
  unfold AesCmacKey.Create
  split
  · rename_i h
    constructor
    · intro h2
      simp at h2
    · rintro ⟨hl, -, -⟩
      exact absurd hl h
  · split
    · rename_i h1 h2
      constructor
      · intro h3
        simp at h3
      · rintro ⟨-, hid, -⟩
        rw [Bool.and_eq_true] at h2
        obtain ⟨ha, hb⟩ := h2
        rw [hid] at ha
        cases idr <;> simp_all
    · split
      · rename_i h1 h2 h3
        constructor
        · intro h4
          simp at h4
        · rintro ⟨-, hid, -⟩
          rw [Bool.and_eq_true] at h3
          obtain ⟨ha, hb⟩ := h3
          rw [hid] at ha
          cases idr <;> simp_all
      · rename_i h1 h2 h3
        simp only [Except.ok.injEq]
        constructor
        · intro he
          refine ⟨by omega, ?_, he.symm⟩
          cases hh : p.HasIdRequirement <;> cases hi : idr <;> simp_all
        · rintro ⟨-, -, hke⟩
          exact hke.symm

/-- After `MacConfig::Register()`, serializing any `Parameters` dispatches to
the registered AES-CMAC parameters serializer. -/
theorem macReg_SerializeParameters_eq (p : Parameters) :
    macRegisteredState.serialization.SerializeParameters p = SerializeAesCmacParameters p := by
  cases p
  rw [macRegisteredState_eq]
  rfl

/-- After `MacConfig::Register()`, parsing a serialization carrying the
AES-CMAC type tag dispatches to the registered AES-CMAC parameters parser. -/
theorem macReg_ParseParameters_eq (s : ProtoParametersSerialization)
    (h : s.type_url = aesCmacKeyTypeUrl) :
    macRegisteredState.serialization.ParseParameters s = ParseAesCmacParameters s := by
  rw [macRegisteredState_eq]
  simp [MutableSerializationRegistry.ParseParameters, List.find?, h]

/-- After `MacConfig::Register()`, serializing any `Key` dispatches to the
registered AES-CMAC key serializer. -/
theorem macReg_SerializeKey_eq (k : Key) (tok : Option SecretKeyAccessToken) :
    macRegisteredState.serialization.SerializeKey k tok = SerializeAesCmacKey k tok := by
  cases k
  rw [macRegisteredState_eq]
  rfl

/-- After `MacConfig::Register()`, parsing a key serialization carrying the
AES-CMAC type tag dispatches to the registered AES-CMAC key parser. -/
theorem macReg_ParseKey_eq (s : ProtoKeySerialization) (tok : Option SecretKeyAccessToken)
    (h : s.type_url = aesCmacKeyTypeUrl) :
    macRegisteredState.serialization.ParseKey s tok = ParseAesCmacKey s tok := by
  rw [macRegisteredState_eq]
  simp [MutableSerializationRegistry.ParseKey, List.find?, h]

/-- C1: for every registered (object kind, format) pair — here the AES-CMAC
parameters pair and the AES-CMAC key pair `MacConfig::Register()` installed —
and every validly constructed `Parameters` or `Key` value `x`, parsing the
serialization of `x` through the registry yields `x` again:
`Parse(Serialize(x)) == x`. -/
theorem mac_serialization_roundtrip :
    (∀ ks ts v p, AesCmacParameters.Create ks ts v = .ok p →
        (macRegisteredState.serialization.SerializeParameters (Parameters.aesCmac p)).bind
          macRegisteredState.serialization.ParseParameters
          = .ok (Parameters.aesCmac p)) ∧
    (∀ ks ts v p kb idr k, AesCmacParameters.Create ks ts v = .ok p →
        AesCmacKey.Create p kb idr = .ok k →
        (macRegisteredState.serialization.SerializeKey (Key.aesCmac k)
            (some .insecureSecretKeyAccess)).bind
          (fun s => macRegisteredState.serialization.ParseKey s (some .insecureSecretKeyAccess))
          = .ok (Key.aesCmac k)) := by
  constructor
  · intro ks ts v p hp
    obtain ⟨hk, ht1, ht2, hpe⟩ := (aesCmacParameters_create_ok_iff ks ts v p).mp hp
    rw [macReg_SerializeParameters_eq]
    subst hpe
    simp only [SerializeAesCmacParameters, Except.bind]
    rw [macReg_ParseParameters_eq _ rfl]
    simp [ParseAesCmacParameters, variantFromOutputPrefixType_roundtrip, hp,
      bind, Except.bind, pure, Except.pure]
  · intro ks ts v p kb idr k hp hk
    obtain ⟨hks, hts1, hts2, hpe⟩ := (aesCmacParameters_create_ok_iff ks ts v p).mp hp
    obtain ⟨hlen, hid, hke⟩ := (aesCmacKey_create_ok_iff p kb idr k).mp hk
    subst hke
    rw [macReg_SerializeKey_eq]
    simp only [SerializeAesCmacKey, RestrictedData.GetSecret, Except.bind, bind,
      pure, Except.pure]
    rw [macReg_ParseKey_eq _ _ rfl]
    have hv : p.variant = v := by rw [hpe]
    have hts : p.cryptographic_tag_size_in_bytes = ts := by rw [hpe]
    have hlen2 : kb.secret.length = ks := by rw [hlen, hpe]
    have hkb : ({ secret := kb.secret } : RestrictedData) = kb := rfl
    simp [ParseAesCmacKey, hv, hts, hlen2, variantFromOutputPrefixType_roundtrip,
      hp, hk, hkb, RestrictedData.Create, bind, Except.bind, pure, Except.pure]

/-- Witness for C1 at the test's concrete parameters and key. -/
theorem mac_serialization_roundtrip_witness :
    (macRegisteredState.serialization.SerializeParameters
        (Parameters.aesCmac aesCmacTestParameters)).bind
      macRegisteredState.serialization.ParseParameters
      = .ok (Parameters.aesCmac aesCmacTestParameters) ∧
    (macRegisteredState.serialization.SerializeKey (Key.aesCmac aesCmacTestKey)
        (some .insecureSecretKeyAccess)).bind
      (fun s => macRegisteredState.serialization.ParseKey s (some .insecureSecretKeyAccess))
      = .ok (Key.aesCmac aesCmacTestKey) := by
  exact ⟨mac_serialization_roundtrip.1 32 16 .kTink aesCmacTestParameters rfl,
    mac_serialization_roundtrip.2 32 16 .kTink aesCmacTestParameters
      { secret := aesCmacTestKeyBytes } (some 123) aesCmacTestKey rfl rfl⟩

/-! ### Error kinds of the registered parsers -/

/-- When `AesCmacParameters::Create` fails, the status is InvalidArgument. -/
theorem aesCmacParameters_create_error_code (ks ts : Nat) (v : AesCmacVariant) (e : Status)
    (h : AesCmacParameters.Create ks ts v = .error e) :
    e.code = StatusCode.invalidArgument := by
  unfold AesCmacParameters.Create at h
  split at h
  · injection h with h2
    rw [← h2]
    rfl
  · split at h
    · injection h with h2
      rw [← h2]
      rfl
    · split at h
      · injection h with h2
        rw [← h2]
        rfl
      · exact Except.noConfusion h

/-- When `AesCmacKey::Create` fails, the status is InvalidArgument. -/
theorem aesCmacKey_create_error_code (p : AesCmacParameters) (kb : RestrictedData)
    (idr : Option Nat) (e : Status) (h : AesCmacKey.Create p kb idr = .error e) :
    e.code = StatusCode.invalidArgument := by
  unfold AesCmacKey.Create at h
  split at h
  · injection h with h2
    rw [← h2]
    rfl
  · split at h
    · injection h with h2
      rw [← h2]
      rfl
    · split at h
      · injection h with h2
        rw [← h2]
        rfl
      · exact Except.noConfusion h

/-- When the variant lookup fails, the status is the InvalidArgument one. -/
theorem variantFromOutputPrefixType_error (o : OutputPrefixTypeProto) (e : Status)
    (h : variantFromOutputPrefixType o = .error e) : e = invalidVariantStatus := by
  cases o <;> simp [variantFromOutputPrefixType] at h
  exact h.symm

/-- When `RestrictedData` construction fails, the status is the
secret-access one. -/
theorem restrictedData_create_error (bs : List Nat) (tok : Option SecretKeyAccessToken)
    (e : Status) (h : RestrictedData.Create bs tok = .error e) :
    e = missingSecretAccessStatus := by
  cases tok <;> simp [RestrictedData.Create] at h
  exact h.symm

/-- The registered AES-CMAC parameters parser never fails with a
NotFound-kind status: all of its rejections are InvalidArgument. -/
theorem parseAesCmacParameters_error_code (s : ProtoParametersSerialization) (e : Status)
    (h : ParseAesCmacParameters s = .error e) : e.code = StatusCode.invalidArgument := by
  unfold ParseAesCmacParameters at h
  split at h
  · injection h with h2
    rw [← h2]
    rfl
  · cases hv : variantFromOutputPrefixType s.output_prefix_type with
    | error ev =>
        rw [hv] at h
        simp only [bind, Except.bind] at h
        injection h with h2
        rw [← h2, variantFromOutputPrefixType_error _ _ hv]
        rfl
    | ok v =>
        rw [hv] at h
        simp only [bind, Except.bind] at h
        cases hc : AesCmacParameters.Create s.key_format.key_size s.key_format.tag_size v with
        | error ec =>
            rw [hc] at h
            simp only [bind, Except.bind] at h
            injection h with h2
            rw [← h2]
            exact aesCmacParameters_create_error_code _ _ _ _ hc
        | ok p =>
            rw [hc] at h
            simp only [pure, Except.pure] at h
            exact Except.noConfusion h

/-- The registered AES-CMAC key parser never fails with a NotFound-kind
status: its rejections are InvalidArgument or the secret-access denial. -/
theorem parseAesCmacKey_error_code (s : ProtoKeySerialization)
    (tok : Option SecretKeyAccessToken) (e : Status)
    (h : ParseAesCmacKey s tok = .error e) : e.code ≠ StatusCode.notFound := by
  unfold ParseAesCmacKey at h
  split at h
  · injection h with h2
    rw [← h2]
    intro hc
    exact StatusCode.noConfusion hc
  · split at h
    · injection h with h2
      rw [← h2]
      intro hc
      exact StatusCode.noConfusion hc
    · split at h
      · injection h with h2
        rw [← h2]
        intro hc
        exact StatusCode.noConfusion hc
      · cases hv : variantFromOutputPrefixType s.output_prefix_type with
        | error ev =>
            rw [hv] at h
            simp only [bind, Except.bind] at h
            injection h with h2
            rw [← h2, variantFromOutputPrefixType_error _ _ hv]
            intro hc
            exact StatusCode.noConfusion hc
        | ok v =>
            rw [hv] at h
            simp only [bind, Except.bind] at h
            cases hc : AesCmacParameters.Create s.serialized_key.key_value.length
                s.serialized_key.tag_size v with
            | error ec =>
                rw [hc] at h
                simp only [bind, Except.bind] at h
                injection h with h2
                rw [← h2]
                have := aesCmacParameters_create_error_code _ _ _ _ hc
                rw [this]
                intro hcc
                exact StatusCode.noConfusion hcc
            | ok p =>
                rw [hc] at h
                simp only [bind, Except.bind] at h
                cases hr : RestrictedData.Create s.serialized_key.key_value tok with
                | error er =>
                    rw [hr] at h
                    simp only [bind, Except.bind] at h
                    injection h with h2
                    rw [← h2, restrictedData_create_error _ _ _ hr]
                    intro hcc
                    exact StatusCode.noConfusion hcc
                | ok rd =>
                    rw [hr] at h
                    simp only [bind, Except.bind] at h
                    cases hk : AesCmacKey.Create p rd s.id_requirement with
                    | error ek =>
                        rw [hk] at h
                        simp only [bind, Except.bind] at h
                        injection h with h2
                        rw [← h2]
                        have := aesCmacKey_create_error_code _ _ _ _ hk
                        rw [this]
                        intro hcc
                        exact StatusCode.noConfusion hcc
                    | ok k =>
                        rw [hk] at h
                        simp only [pure, Except.pure] at h
                        exact Except.noConfusion h

/-- C2: lookups on the process-wide registries fail with NotFound exactly
when nothing is registered for the requested identifier, format or
capability — `get_key_manager` and `Wrap` in general, and the serialization
registry operations on the reset state — and after `MacConfig::Register()`
each of the same operations succeeds on the same inputs (and the registered
parsers no longer produce the NotFound status on their tag). -/
theorem registry_notFound_exactly_when_unregistered :
    (∀ st cap url, get_key_manager st cap url = .error keyManagerNotFoundStatus ↔
        managerFor st url = none) ∧
    (∀ st ps, Wrap st ps = .error wrapperNotFoundStatus ↔
        st.registry.mac_wrapper_registered = false) ∧
    (∀ s, MutableSerializationRegistry.empty.ParseParameters s
        = .error noParametersParserStatus) ∧
    (∀ s tok, MutableSerializationRegistry.empty.ParseKey s tok
        = .error noKeyParserStatus) ∧
    (∀ p, MutableSerializationRegistry.empty.SerializeParameters p
        = .error noParametersSerializerStatus) ∧
    (∀ k tok, MutableSerializationRegistry.empty.SerializeKey k tok
        = .error noKeySerializerStatus) ∧
    (∀ cap, get_key_manager macRegisteredState.registry cap hmacKeyTypeUrl
        = .ok hmacKeyManager) ∧
    (∀ cap, get_key_manager macRegisteredState.registry cap aesCmacKeyTypeUrl
        = .ok aesCmacKeyManager) ∧
    (∀ ps, Wrap macRegisteredState ps = .ok ps) ∧
    macRegisteredState.serialization.ParseParameters aesCmacTestParametersSerialization
      = .ok (Parameters.aesCmac aesCmacTestParameters) ∧
    macRegisteredState.serialization.SerializeParameters
        (Parameters.aesCmac aesCmacTestParameters)
      = .ok aesCmacTestParametersSerialization ∧
    macRegisteredState.serialization.ParseKey aesCmacTestKeySerialization
        (some .insecureSecretKeyAccess)
      = .ok (Key.aesCmac aesCmacTestKey) ∧
    macRegisteredState.serialization.SerializeKey (Key.aesCmac aesCmacTestKey)
        (some .insecureSecretKeyAccess)
      = .ok aesCmacTestKeySerialization ∧
    (∀ s, s.type_url = aesCmacKeyTypeUrl →
        macRegisteredState.serialization.ParseParameters s
          ≠ .error noParametersParserStatus) ∧
    (∀ s tok, s.type_url = aesCmacKeyTypeUrl →
        macRegisteredState.serialization.ParseKey s tok ≠ .error noKeyParserStatus) := by
  refine ⟨?_, ?_, ?_, ?_, ?_, ?_, ?_, ?_, ?_, rfl, rfl, rfl, rfl, ?_, ?_⟩
  · intro st cap url
    unfold get_key_manager
    split
    · rename_i heq
      simp [heq]
    · rename_i m heq
      rw [heq]
      split
      · simp
      · simp [keyManagerUnsupportedStatus, keyManagerNotFoundStatus]
  · intro st ps
    unfold Wrap
    cases hw : st.registry.mac_wrapper_registered <;> simp [hw]
  · intro s
    rfl
  · intro s tok
    rfl
  · intro p
    cases p
    rfl
  · intro k tok
    cases k
    rfl
  · intro cap
    cases cap <;> rfl
  · intro cap
    cases cap <;> rfl
  · intro ps
    rfl
  · intro s hurl hcon
    rw [macReg_ParseParameters_eq s hurl] at hcon
    have h2 := parseAesCmacParameters_error_code s noParametersParserStatus hcon
    simp [noParametersParserStatus] at h2
  · intro s tok hurl hcon
    rw [macReg_ParseKey_eq s tok hurl] at hcon
    exact parseAesCmacKey_error_code s tok noKeyParserStatus hcon rfl

/-- Witness for C2: NotFound before registration and success after, at the
test's concrete identifiers and serializations. -/
theorem registry_notFound_exactly_when_unregistered_witness :
    get_key_manager RegistryState.initial .mac hmacKeyTypeUrl
      = .error keyManagerNotFoundStatus ∧
    Wrap GlobalState.initial rawTestSet = .error wrapperNotFoundStatus ∧
    get_key_manager macRegisteredState.registry .mac hmacKeyTypeUrl = .ok hmacKeyManager ∧
    Wrap macRegisteredState rawTestSet = .ok rawTestSet ∧
    macRegisteredState.serialization.ParseParameters aesCmacTestParametersSerialization
      ≠ .error noParametersParserStatus := by
  obtain ⟨h1, h2, -, -, -, -, h7, -, h9, -, -, -, -, h14, -⟩ :=
    registry_notFound_exactly_when_unregistered
  exact ⟨(h1 RegistryState.initial .mac hmacKeyTypeUrl).mpr rfl,
    (h2 GlobalState.initial rawTestSet).mpr rfl, h7 .mac, h9 rawTestSet,
    h14 aesCmacTestParametersSerialization rfl⟩

/-- C3: when the primary is an ENABLED entry with output-prefix type TINK
and key id `N`, the wrapped `ComputeMac` emits `0x01` followed by the 4-byte
big-endian encoding of `N` and then the underlying primitive's output; when
the primary has output-prefix type RAW, it emits exactly the underlying
primitive's native output. -/
theorem wrapped_mac_output_framing :
    ∀ (ps : MacPrimitiveSet) (e : MacEntry) (msg : List Nat),
      ps.primaryEntry = some e → e.status = KeyStatusType.enabled →
      ((e.output_prefix_type = .tink →
          ComputeMac ps msg = .ok (1 :: (uint32BigEndian e.key_id ++ e.compute msg))) ∧
       (e.output_prefix_type = .raw →
          ComputeMac ps msg = .ok (e.compute msg))) := by
  intro ps e msg hp hs
  unfold ComputeMac
  rw [hp]
  constructor
  · intro ht
    simp [entryMacOutput, framingBytes, macInputFor, ht]
  · intro hr
    simp [entryMacOutput, framingBytes, macInputFor, hr]

/-- Witness for C3 at the test's key id 1234 with concrete TINK and RAW sets. -/
theorem wrapped_mac_output_framing_witness :
    ComputeMac tinkTestSet [5] = .ok (1 :: (uint32BigEndian 1234 ++ dummyMac [5])) ∧
    ComputeMac rawTestSet [5] = .ok (dummyMac [5]) := by
  exact ⟨(wrapped_mac_output_framing tinkTestSet tinkTestEntry [5] rfl rfl).1 rfl,
    (wrapped_mac_output_framing rawTestSet rawTestEntry [5] rfl rfl).2 rfl⟩

/-- C4: any two failures of the wrapped verification operation return one
and the same InvalidArgument-kind status, whatever the inputs and whichever
stage failed; and the operation succeeds exactly when some candidate entry
(RAW entries included) matches, i.e. failure is reported only after every
candidate has been attempted. -/
theorem mac_verify_uniform_failure :
    (∀ ps t1 m1 t2 m2 e1 e2,
        VerifyMac ps t1 m1 = .error e1 → VerifyMac ps t2 m2 = .error e2 →
        e1 = e2 ∧ e1.code = StatusCode.invalidArgument) ∧
    (∀ ps t m, VerifyMac ps t m = .ok () ↔
        ∃ e ∈ EntriesForCandidate ps t, t = entryMacOutput e m) := by
  constructor
  · intro ps t1 m1 t2 m2 e1 e2 h1 h2
    unfold VerifyMac at h1 h2
    split at h1
    · exact absurd h1 (by simp)
    · split at h2
      · exact absurd h2 (by simp)
      · injection h1 with h1e
        injection h2 with h2e
        rw [← h1e, ← h2e]
        exact ⟨rfl, rfl⟩
  · intro ps t m
    unfold VerifyMac
    split
    · rename_i h
      rw [List.any_eq_true] at h
      simp only [beq_iff_eq] at h
      exact ⟨fun _ => h, fun _ => rfl⟩
    · rename_i h
      constructor
      · intro hcon
        exact absurd hcon (by simp)
      · intro hex
        exfalso
        apply h
        rw [List.any_eq_true]
        obtain ⟨e, he, heq⟩ := hex
        exact ⟨e, he, by simp [heq]⟩

/-- Witness for C4: two failing verifications — a RAW cryptographic mismatch
and a candidate framed for an absent key id — yield the same status. -/
theorem mac_verify_uniform_failure_witness :
    macVerificationFailedStatus = macVerificationFailedStatus ∧
    macVerificationFailedStatus.code = StatusCode.invalidArgument := by
  exact mac_verify_uniform_failure.1 rawTestSet [8, 5] [5] [1, 0, 0, 4, 211, 9, 5] [5]
    macVerificationFailedStatus macVerificationFailedStatus rfl rfl

/-- C5 counterexample: in FIPS-only mode, generating a keyset from the
AES-CMAC template fails, but with the NotFound-kind status (the AES-CMAC key
manager is simply not registered), not a FailedPrecondition-kind one — as
`mac_config_test.cc` line 286 asserts (`StatusIs(absl::StatusCode::kNotFound)`). -/
theorem fips_aesCmac_generate_counterexample :
    GenerateNew fipsRegisteredState MacKeyTemplates.AesCmac
      = .error keyManagerNotFoundStatus ∧
    keyManagerNotFoundStatus.code = StatusCode.notFound ∧
    decide (keyManagerNotFoundStatus.code = StatusCode.failedPrecondition) = false := by
  exact ⟨rfl, rfl, rfl⟩

/-- C5 (amended): in FIPS-only mode, `MacConfig::Register()` succeeds but
registers only the HMAC key manager, so generating a new keyset from the
AES-CMAC template fails with a NotFound-kind error, while the four
FIPS-approved HMAC templates succeed. -/
theorem fips_mode_template_restriction :
    MacConfig.Register true GlobalState.initial = .ok fipsRegisteredState ∧
    GenerateNew fipsRegisteredState MacKeyTemplates.AesCmac
      = .error keyManagerNotFoundStatus ∧
    keyManagerNotFoundStatus.code = StatusCode.notFound ∧
    GenerateNew fipsRegisteredState MacKeyTemplates.HmacSha256 = .ok () ∧
    GenerateNew fipsRegisteredState MacKeyTemplates.HmacSha256HalfSizeTag = .ok () ∧
    GenerateNew fipsRegisteredState MacKeyTemplates.HmacSha512 = .ok () ∧
    GenerateNew fipsRegisteredState MacKeyTemplates.HmacSha512HalfSizeTag = .ok () := by
  exact ⟨rfl, rfl, rfl, rfl, rfl, rfl, rfl⟩

/-- C7: obtaining a `Key` from a serialization through the registry
requires presenting the secret-access token — every successful `ParseKey`
presented it, parsing with no token is denied outright, and the
`RestrictedData` primitives deny raw-secret extraction and construction
without the token. -/
theorem key_parse_requires_secret_token :
    (∀ s tok k, macRegisteredState.serialization.ParseKey s tok = .ok k →
        tok.isSome = true) ∧
    (∀ s, s.type_url = aesCmacKeyTypeUrl →
        macRegisteredState.serialization.ParseKey s none
          = .error missingSecretAccessStatus) ∧
    (∀ rd tok b, RestrictedData.GetSecret rd tok = .ok b → tok.isSome = true) ∧
    (∀ bs tok rd, RestrictedData.Create bs tok = .ok rd → tok.isSome = true) := by
  refine ⟨?_, ?_, ?_, ?_⟩
  · intro s tok k h
    by_cases hurl : s.type_url = aesCmacKeyTypeUrl
    · rw [macReg_ParseKey_eq s tok hurl] at h
      cases tok with
      | some t => rfl
      | none =>
          exfalso
          unfold ParseAesCmacKey at h
          simp [hurl] at h
    · exfalso
      have hurl2 : aesCmacKeyTypeUrl ≠ s.type_url := fun hc => hurl hc.symm
      rw [macRegisteredState_eq] at h
      simp only [MutableSerializationRegistry.ParseKey, List.find?,
        beq_false_of_ne hurl2] at h
      exact Except.noConfusion h
  · intro s hurl
    rw [macReg_ParseKey_eq s none hurl]
    unfold ParseAesCmacKey
    simp [hurl]
  · intro rd tok b h
    cases tok with
    | some t => rfl
    | none => simp [RestrictedData.GetSecret] at h
  · intro bs tok rd h
    cases tok with
    | some t => rfl
    | none => simp [RestrictedData.Create] at h

/-- Witness for C7: the test's key serialization parses with the insecure
token present, and is denied with no token. -/
theorem key_parse_requires_secret_token_witness :
    (some SecretKeyAccessToken.insecureSecretKeyAccess).isSome = true ∧
    macRegisteredState.serialization.ParseKey aesCmacTestKeySerialization none
      = .error missingSecretAccessStatus := by
  exact ⟨key_parse_requires_secret_token.1 aesCmacTestKeySerialization
      (some .insecureSecretKeyAccess) (Key.aesCmac aesCmacTestKey) rfl,
    key_parse_requires_secret_token.2.1 aesCmacTestKeySerialization rfl⟩

/-- C8: `set_primary` succeeds exactly on a handle referencing a present
ENABLED entry (failing with InvalidArgument on a DISABLED or absent one),
every successful `set_primary` establishes the primary invariant, and
`AddPrimitive` preserves it — so the at-most-one designated primary (an
`Option` in the model) always references a present ENABLED entry. -/
theorem primitive_set_primary_exclusivity :
    (∀ (ps : MacPrimitiveSet) (handle : Nat), ps.entries.get? handle = none →
        ps.set_primary handle = .error setPrimaryInvalidStatus) ∧
    (∀ (ps : MacPrimitiveSet) (handle : Nat) (e : MacEntry),
        ps.entries.get? handle = some e →
        e.status ≠ KeyStatusType.enabled →
        ps.set_primary handle = .error setPrimaryInvalidStatus) ∧
    (∀ (ps : MacPrimitiveSet) (handle : Nat) (e : MacEntry),
        ps.entries.get? handle = some e →
        e.status = KeyStatusType.enabled →
        ps.set_primary handle = .ok { ps with primary_index := some handle }) ∧
    (∀ (ps : MacPrimitiveSet) (handle : Nat) (ps2 : MacPrimitiveSet),
        ps.set_primary handle = .ok ps2 → ps2.PrimaryOk) ∧
    (∀ (ps : MacPrimitiveSet) (e : MacEntry) (ps2 : MacPrimitiveSet) (h2 : Nat),
        ps.PrimaryOk → ps.AddPrimitive e = .ok (ps2, h2) → ps2.PrimaryOk) := by
  refine ⟨?_, ?_, ?_, ?_, ?_⟩
  · intro ps handle h
    unfold MacPrimitiveSet.set_primary
    rw [h]
  · intro ps handle e h hne
    unfold MacPrimitiveSet.set_primary
    rw [h]
    simp [hne]
  · intro ps handle e h hs
    unfold MacPrimitiveSet.set_primary
    rw [h]
    simp [hs]
  · intro ps handle ps2 h
    unfold MacPrimitiveSet.set_primary at h
    split at h
    · exact absurd h (by simp)
    · rename_i e heq
      split at h
      · rename_i hs
        injection h with h1
        subst h1
        intro i hi
        injection hi with hi2
        subst hi2
        exact ⟨e, heq, hs⟩
      · exact absurd h (by simp)
  · intro ps e ps2 h2 hok hadd
    unfold MacPrimitiveSet.AddPrimitive at hadd
    split at hadd
    · exact absurd hadd (by simp)
    · injection hadd with h3
      injection h3 with h4 h5
      subst h4
      intro i hi
      obtain ⟨e0, hg, hs⟩ := hok i hi
      refine ⟨e0, ?_, hs⟩
      have hlt : i < ps.entries.length := by
        rcases List.get?_eq_some.mp hg with ⟨hl, -⟩
        exact hl
      rw [List.get?_append hlt]
      exact hg

/-- Witness for C8 on a set holding one ENABLED and one DISABLED entry:
designating the ENABLED entry succeeds, the DISABLED and an absent handle
fail. -/
theorem primitive_set_primary_exclusivity_witness :
    MacPrimitiveSet.set_primary mixedTestSet 0
      = .ok { mixedTestSet with primary_index := some 0 } ∧
    MacPrimitiveSet.set_primary mixedTestSet 1 = .error setPrimaryInvalidStatus ∧
    MacPrimitiveSet.set_primary mixedTestSet 5 = .error setPrimaryInvalidStatus := by
  refine ⟨?_, ?_, ?_⟩
  · exact primitive_set_primary_exclusivity.2.2.1 mixedTestSet 0 rawTestEntry rfl rfl
  · exact primitive_set_primary_exclusivity.2.1 mixedTestSet 1 disabledTestEntry rfl
      (by decide)
  · exact primitive_set_primary_exclusivity.1 mixedTestSet 5 rfl

end Tink
